import Mathlib

/-!
Shallow embedding of `backup_automator.py` (SimpleBackup).

The program is a linear orchestration: load a JSON configuration, iterate
website and database targets, invoke external archive/dump utilities, then
sweep the backup directory for expired files.  Every function below is
translated from the corresponding Python function; external effects (the
filesystem, spawned processes, log lines) are made explicit as data:
each backup step reports the value it returned, the files it leaves in the
backup directory, the external processes it spawned, and the error line it
logged, so that the orchestration counters and on-disk effects can be
reasoned about directly.
-/

/-- A `websites` entry of the configuration document
(`name`, `path`, `enabled`). -/
structure WebsiteTarget where
  name : String
  path : String
  enabled : Bool
deriving DecidableEq

/-- A `databases` entry of the configuration document.  The `type` field may
be absent from the document, hence `Option String` (the code reads it with
`db_config.get(ʼtypeʼ, ʼmysqlʼ)`). -/
structure DatabaseTarget where
  name : String
  dbType : Option String
  host : String
  port : Nat
  user : String
  password : String
  database : String
  enabled : Bool
deriving DecidableEq

/-- The configuration document (`backup_dir`, `retention_days`, `websites`,
`databases`; `compression` and `notifications` are read but never acted
upon by the core logic, so they are carried as plain data). -/
structure Config where
  backup_dir : String
  retention_days : Int
  compression : String
  websites : List WebsiteTarget
  databases : List DatabaseTarget
deriving DecidableEq

/-- The default configuration document written by
`BackupConfig.create_default_config`. -/
def create_default_config : Config :=
  { backup_dir := "./backups"
  , retention_days := 7
  , compression := "gz"
  , websites :=
      [ { name := "example_site"
        , path := "/var/www/html/example"
        , enabled := false } ]
  , databases :=
      [ { name := "example_db"
        , dbType := some "mysql"
        , host := "localhost"
        , port := 3306
        , user := "backup_user"
        , password := "your_password"
        , database := "example_database"
        , enabled := false } ] }

/-- State of the configuration file at the given path, as
`BackupConfig.load_config` observes it: absent, present but not valid JSON
(`json.load` raises `JSONDecodeError`), or present and parsed. -/
inductive ConfigFile
  | missing
  | invalidJson
  | validJson (c : Config)
deriving DecidableEq

/-- Outcome of `BackupConfig.load_config`: either the process terminates via
`sys.exit(1)`, or a configuration is returned; `wroteDefault` records whether
the default document was written to the path. -/
inductive LoadResult
  | fatalExit
  | loaded (c : Config) (wroteDefault : Bool)
deriving DecidableEq

/-- `BackupConfig.load_config`: a missing file is replaced by the default
configuration (written to disk and returned); a file that fails JSON parsing
logs an error and exits the process with code 1; otherwise the parsed
document is returned as-is. -/
def load_config : ConfigFile → LoadResult
  | .missing => .loaded create_default_config true
  | .invalidJson => .fatalExit
  | .validJson c => .loaded c false

/-- Observable effect of one backup step (one call to `backup_website` or
`backup_database`): the Python return value (`backup_path` or `None`), the
files the step leaves behind in the backup directory, the external processes
it spawned, and the error line it logged, if any. -/
structure StepResult where
  returned : Option String
  filesLeft : List String
  processesInvoked : List String
  logError : Option String
deriving DecidableEq

/-- Execution environment for the database paths: which external binaries
exist on `PATH` (a `subprocess.Popen` of an absent binary raises
`FileNotFoundError`), and the exit codes and captured stderr of the two
pipeline stages when they do run. -/
structure ToolEnv where
  mysqldump_present : Bool
  pg_dump_present : Bool
  gzip_present : Bool
  dump_returncode : Int
  gzip_returncode : Int
  dump_stderr : String
  gzip_stderr : String

/-- Execution environment for the website path: which filesystem paths
exist, and whether the `tarfile` archive creation succeeds. -/
structure WebsiteEnv where
  pathExists : String → Bool
  tarOk : Bool
  tarError : String

/-- `BackupManager.backup_website`.  Disabled targets are skipped with an
info log and return `None`.  A missing source path logs an error and returns
`None` before any file is created.  Otherwise the archive
`{name}_website_{timestamp}.tar.gz` is written; on a `tarfile` exception the
code logs and returns `None` without deleting the partial archive. -/
def backup_website (env : WebsiteEnv) (w : WebsiteTarget) (ts : String) :
    StepResult :=
  if !w.enabled then
    { returned := none, filesLeft := [], processesInvoked := []
    , logError := none }
  else if !env.pathExists w.path then
    { returned := none, filesLeft := [], processesInvoked := []
    , logError := some ("Website path does not exist: " ++ w.path) }
  else
    let backup_name := w.name ++ "_website_" ++ ts ++ ".tar.gz"
    if env.tarOk then
      { returned := some backup_name, filesLeft := [backup_name]
      , processesInvoked := [], logError := none }
    else
      { returned := none, filesLeft := [backup_name]
      , processesInvoked := []
      , logError := some ("✗ Website backup failed: " ++ env.tarError) }

/-- `BackupManager.backup_mysql_database`.  The destination file
`{name}_mysql_{timestamp}.sql.gz` is opened (hence created, empty) before
the dump process is spawned.  An absent binary raises `FileNotFoundError`,
whose handler logs the missing-tool message and returns `None` without
unlinking, so the zero-byte file stays behind.  When both stages run, a
non-zero exit of either raises an exception carrying the captured stderr of that
stage; the generic handler logs it, unlinks the destination file and
returns `None`.  The exit code of the dump stage is checked first. -/
def backup_mysql_database (env : ToolEnv) (t : DatabaseTarget) (ts : String) :
    StepResult :=
  let backup_name := t.name ++ "_mysql_" ++ ts ++ ".sql.gz"
  if !env.mysqldump_present then
    { returned := none, filesLeft := [backup_name], processesInvoked := []
    , logError := some "✗ mysqldump not found. Please install MySQL client tools." }
  else if !env.gzip_present then
    { returned := none, filesLeft := [backup_name]
    , processesInvoked := ["mysqldump"]
    , logError := some "✗ mysqldump not found. Please install MySQL client tools." }
  else if env.dump_returncode != 0 then
    { returned := none, filesLeft := []
    , processesInvoked := ["mysqldump", "gzip"]
    , logError := some ("✗ MySQL backup failed: mysqldump error: " ++ env.dump_stderr) }
  else if env.gzip_returncode != 0 then
    { returned := none, filesLeft := []
    , processesInvoked := ["mysqldump", "gzip"]
    , logError := some ("✗ MySQL backup failed: gzip error: " ++ env.gzip_stderr) }
  else
    { returned := some backup_name, filesLeft := [backup_name]
    , processesInvoked := ["mysqldump", "gzip"], logError := none }

/-- `BackupManager.backup_postgresql_database`: same two-stage pipeline as
the MySQL path, with `pg_dump` and the file name
`{name}_postgresql_{timestamp}.sql.gz`. -/
def backup_postgresql_database (env : ToolEnv) (t : DatabaseTarget)
    (ts : String) : StepResult :=
  let backup_name := t.name ++ "_postgresql_" ++ ts ++ ".sql.gz"
  if !env.pg_dump_present then
    { returned := none, filesLeft := [backup_name], processesInvoked := []
    , logError := some "✗ pg_dump not found. Please install PostgreSQL client tools." }
  else if !env.gzip_present then
    { returned := none, filesLeft := [backup_name]
    , processesInvoked := ["pg_dump"]
    , logError := some "✗ pg_dump not found. Please install PostgreSQL client tools." }
  else if env.dump_returncode != 0 then
    { returned := none, filesLeft := []
    , processesInvoked := ["pg_dump", "gzip"]
    , logError := some ("✗ PostgreSQL backup failed: pg_dump error: " ++ env.dump_stderr) }
  else if env.gzip_returncode != 0 then
    { returned := none, filesLeft := []
    , processesInvoked := ["pg_dump", "gzip"]
    , logError := some ("✗ PostgreSQL backup failed: gzip error: " ++ env.gzip_stderr) }
  else
    { returned := some backup_name, filesLeft := [backup_name]
    , processesInvoked := ["pg_dump", "gzip"], logError := none }

/-- Python `str.lower()` on the type field: lower-case every character.
Stated character-by-character so that it evaluates by kernel reduction;
`lowerStr_eq_toLower` below checks it agrees with `String.toLower`. -/
def lowerStr (s : String) : String := String.mk (s.data.map Char.toLower)

/-- `BackupManager.backup_database`: disabled targets are skipped with an
info log (`None` returned); otherwise dispatch on
`db_config.get(ʼtypeʼ, ʼmysqlʼ).lower()`. -/
def backup_database (env : ToolEnv) (t : DatabaseTarget) (ts : String) :
    StepResult :=
  if !t.enabled then
    { returned := none, filesLeft := [], processesInvoked := []
    , logError := none }
  else
    let db_type := lowerStr (t.dbType.getD "mysql")
    if db_type == "mysql" || db_type == "mariadb" then
      backup_mysql_database env t ts
    else if db_type == "postgresql" || db_type == "postgres" then
      backup_postgresql_database env t ts
    else
      { returned := none, filesLeft := [], processesInvoked := []
      , logError := some ("Unsupported database type: " ++ db_type) }

/-- A direct entry of the backup directory as `cleanup_old_backups` observes
it through `glob` and `stat`: its name, its `Path.suffix` (the final
extension), its last-modified time in seconds, and whether it is a regular
file (the `logs` subdirectory is not). -/
structure BackupFile where
  name : String
  suffix : String
  mtime : Int
  isFile : Bool
deriving DecidableEq

/-- The deletion test of `BackupManager.cleanup_old_backups` for one entry:
a regular file whose suffix is one of `.gz`, `.sql`, `.tar` and whose age
`current_time - st_mtime` strictly exceeds
`retention_days * 24 * 3600` seconds. -/
def shouldDelete (retention_days : Int) (current_time : Int)
    (f : BackupFile) : Bool :=
  f.isFile && decide (f.suffix ∈ [".gz", ".sql", ".tar"])
    && decide (current_time - f.mtime > retention_days * 24 * 3600)

/-- Report of the retention sweep: the entries removed, the entries left in
place, and the removed count the function logs. -/
structure CleanupResult where
  removed : List BackupFile
  remaining : List BackupFile
  removed_count : Nat
deriving DecidableEq

/-- `BackupManager.cleanup_old_backups`: every direct entry of the backup
directory passing `shouldDelete` is unlinked; everything else is left
untouched. -/
def cleanup_old_backups (retention_days : Int) (current_time : Int)
    (files : List BackupFile) : CleanupResult :=
  let removed := files.filter (shouldDelete retention_days current_time)
  { removed := removed
  , remaining := files.filter (fun f => !shouldDelete retention_days current_time f)
  , removed_count := removed.length }

/-- Aggregate outcome of `BackupManager.run_backup`: the success and failure
counters and the accumulated on-disk / process effects of all the backup
steps (the retention sweep runs afterwards on the directory listing and does
not affect the counters). -/
structure RunResult where
  success_count : Nat
  fail_count : Nat
  files : List String
  processes : List String
deriving DecidableEq

/-- Fold the result of one step into the running totals: the Python code counts
`success_count += 1` when the step returned a path and `fail_count += 1`
when it returned `None` (note: a step that returned `None` because the
target was disabled falls into the same `else` branch). -/
def countStep (acc : RunResult) (r : StepResult) : RunResult :=
  { success_count := acc.success_count + (if r.returned.isSome then 1 else 0)
  , fail_count := acc.fail_count + (if r.returned.isSome then 0 else 1)
  , files := acc.files ++ r.filesLeft
  , processes := acc.processes ++ r.processesInvoked }

/-- `BackupManager.run_backup`: iterate all websites, then all databases, in
listed order, counting the outcome of each step. -/
def run_backup (wenv : WebsiteEnv) (denv : ToolEnv) (cfg : Config)
    (ts : String) : RunResult :=
  let afterWebsites := cfg.websites.foldl
    (fun acc w => countStep acc (backup_website wenv w ts))
    { success_count := 0, fail_count := 0, files := [], processes := [] }
  cfg.databases.foldl
    (fun acc d => countStep acc (backup_database denv d ts))
    afterWebsites

/-- Observable outcome of `main`: the process exit code, whether the backup
loop ran, and whether the default configuration document was written. -/
structure MainResult where
  exitCode : Nat
  ranBackup : Bool
  wroteDefaultConfig : Bool
deriving DecidableEq

/-- `main` (renamed here because Lean reserves `main`): load the configuration (a parse failure exits 1 inside
`load_config`); with `--init`, print and exit 0 without running backups;
otherwise run the backup and exit 0 when `fail_count = 0`, else 1. -/
def main_fn (file : ConfigFile) (initFlag : Bool) (wenv : WebsiteEnv)
    (denv : ToolEnv) (ts : String) : MainResult :=
  match load_config file with
  | .fatalExit =>
      { exitCode := 1, ranBackup := false, wroteDefaultConfig := false }
  | .loaded cfg wrote =>
      if initFlag then
        { exitCode := 0, ranBackup := false, wroteDefaultConfig := wrote }
      else
        let r := run_backup wenv denv cfg ts
        { exitCode := if r.fail_count = 0 then 0 else 1
        , ranBackup := true, wroteDefaultConfig := wrote }

/-! ### Concrete fixtures used by the theorems below -/

/-- Environment in which no website source path exists. -/
def wenvMissingPath : WebsiteEnv :=
  { pathExists := fun _ => false, tarOk := true, tarError := "" }

/-- Environment in which every external binary is present and both pipeline
stages exit 0. -/
def denvAllTools : ToolEnv :=
  { mysqldump_present := true, pg_dump_present := true, gzip_present := true
  , dump_returncode := 0, gzip_returncode := 0
  , dump_stderr := "", gzip_stderr := "" }

/-- Same environment with the `mysqldump` binary absent from `PATH`. -/
def denvMissingMysqldump : ToolEnv :=
  { denvAllTools with mysqldump_present := false }

/-- Same environment with the `pg_dump` binary absent from `PATH`. -/
def denvMissingPgDump : ToolEnv :=
  { denvAllTools with pg_dump_present := false }

/-- A database target named `db1` with the given `type` field and flag. -/
def sampleDb (ty : Option String) (en : Bool) : DatabaseTarget :=
  { name := "db1", dbType := ty, host := "localhost", port := 3306
  , user := "backup_user", password := "pw", database := "maindb"
  , enabled := en }

/-- A website target named `site1` with the given flag. -/
def sampleSite (en : Bool) : WebsiteTarget :=
  { name := "site1", path := "/var/www/site1", enabled := en }

/-- Configuration with one disabled website and one disabled database. -/
def cfgAllDisabled : Config :=
  { backup_dir := "./backups", retention_days := 7, compression := "gz"
  , websites := [sampleSite false]
  , databases := [sampleDb (some "mysql") false] }

/-- Configuration whose only target is one enabled MySQL database. -/
def cfgOneMysql : Config :=
  { backup_dir := "./backups", retention_days := 7, compression := "gz"
  , websites := []
  , databases := [sampleDb (some "mysql") true] }

/-- Configuration whose only target is one disabled website. -/
def cfgOneDisabledSite : Config :=
  { backup_dir := "./backups", retention_days := 7, compression := "gz"
  , websites := [sampleSite false]
  , databases := [] }

/-! ### Theorems -/

/-- Sanity check for the embedding of `.lower()`: `lowerStr` agrees with
`String.toLower` on every string. -/
theorem lowerStr_eq_toLower (s : String) : lowerStr s = s.toLower := by
  simp [lowerStr, String.toLower, String.map_eq]

/-- Claim C1.  The spec says a disabled target contributes to neither the
success nor the failure count.  On the code this is false: a disabled
target produces no file, but `backup_website` / `backup_database` return
`None` for it and `run_backup` counts every `None` in its
`else: fail_count += 1` branch, so each disabled target adds one to the
failure count.  On a configuration with one disabled website and one
disabled database the run creates no files yet reports 2 failures. -/
theorem disabled_targets_are_counted_as_failures :
    run_backup wenvMissingPath denvAllTools cfgAllDisabled "20250101_120000"
      = { success_count := 0, fail_count := 2, files := [], processes := [] } := by
  decide

/-- Claim C2.  With one enabled MySQL target and `mysqldump` absent, the run
does report exactly one failure with the distinct missing-tool message, but
it does not create zero files: the destination file is opened before the
dump process is spawned, and the `FileNotFoundError` handler returns without
unlinking it, so one zero-byte `.sql.gz` file is left in the backup
directory. -/
theorem missing_mysqldump_leaves_zero_byte_file :
    (backup_database denvMissingMysqldump (sampleDb (some "mysql") true)
        "20250101_120000").logError
      = some "✗ mysqldump not found. Please install MySQL client tools."
    ∧ run_backup wenvMissingPath denvMissingMysqldump cfgOneMysql "20250101_120000"
      = { success_count := 0, fail_count := 1
        , files := ["db1_mysql_20250101_120000.sql.gz"], processes := [] } := by
  decide

/-- Claim C3.  The spec says no failure path retains a zero-byte or
truncated dump file.  On the missing-tool failure path of both database
backends the code returns `None` while the freshly created empty
destination file stays behind (only the generic exception handler unlinks
it). -/
theorem missing_tool_failure_path_retains_file :
    (backup_mysql_database denvMissingMysqldump (sampleDb (some "mysql") true)
        "20250101_130000").returned = none
    ∧ (backup_mysql_database denvMissingMysqldump (sampleDb (some "mysql") true)
        "20250101_130000").filesLeft = ["db1_mysql_20250101_130000.sql.gz"]
    ∧ (backup_postgresql_database denvMissingPgDump (sampleDb (some "postgresql") true)
        "20250101_130000").returned = none
    ∧ (backup_postgresql_database denvMissingPgDump (sampleDb (some "postgresql") true)
        "20250101_130000").filesLeft = ["db1_postgresql_20250101_130000.sql.gz"] := by
  decide

/-- Claim C5.  Loading a missing configuration file writes the default
configuration (all targets disabled) and returns it; loading a file that is
not valid JSON terminates the process via `sys.exit(1)`. -/
theorem load_config_missing_and_invalid :
    load_config .missing = .loaded create_default_config true
    ∧ create_default_config.websites.all (fun w => !w.enabled) = true
    ∧ create_default_config.databases.all (fun d => !d.enabled) = true
    ∧ load_config .invalidJson = .fatalExit := by
  decide

/-- Claim C9.  The spec says two runs over an all-disabled configuration
both report zero successes and zero failures.  On the code each disabled
target is counted as a failure, so with one disabled website both runs
create no files yet each reports `fail_count = 1`. -/
theorem all_disabled_runs_report_failures :
    run_backup wenvMissingPath denvAllTools cfgOneDisabledSite "20250101_160000"
      = { success_count := 0, fail_count := 1, files := [], processes := [] }
    ∧ run_backup wenvMissingPath denvAllTools cfgOneDisabledSite "20250102_160000"
      = { success_count := 0, fail_count := 1, files := [], processes := [] } := by
  decide

/-- A recognized backup file whose mtime is 8 days before time 10000000
(retention 7): `10000000 - (7 + 1) * 86400 = 9308800`. -/
def oldGz : BackupFile :=
  { name := "db1_mysql_20240101_000000.sql.gz", suffix := ".gz"
  , mtime := 9308800, isFile := true }

/-- Claim C4.  The retention sweep deletes a regular file directly under the
backup directory exactly when its extension is one of `.gz`, `.sql`, `.tar`
and its age exceeds `retention_days * 86400` seconds; in particular a
recognized file dated `now - (retentionDays+1)` days is deleted, one dated
`now - (retentionDays-1)` days survives, and unrecognized extensions are
never touched. -/
theorem retention_sweep_deletes_iff (r now : Int) (files : List BackupFile)
    (f : BackupFile) (hmem : f ∈ files) (hfile : f.isFile = true) (hr : 0 ≤ r) :
    (f ∈ (cleanup_old_backups r now files).removed ↔
        f.suffix ∈ [".gz", ".sql", ".tar"] ∧ now - f.mtime > r * 86400)
    ∧ (f ∈ (cleanup_old_backups r now files).remaining ↔
        ¬(f.suffix ∈ [".gz", ".sql", ".tar"] ∧ now - f.mtime > r * 86400))
    ∧ (f.suffix ∈ [".gz", ".sql", ".tar"] → f.mtime = now - (r + 1) * 86400 →
        f ∈ (cleanup_old_backups r now files).removed)
    ∧ (f.mtime = now - (r - 1) * 86400 →
        f ∉ (cleanup_old_backups r now files).removed)
    ∧ (f.suffix ∉ [".gz", ".sql", ".tar"] →
        f ∉ (cleanup_old_backups r now files).removed) := by
  have harith : r * 24 * 3600 = r * 86400 := by ring
  have key : f ∈ (cleanup_old_backups r now files).removed ↔
      (f.suffix ∈ [".gz", ".sql", ".tar"] ∧ now - f.mtime > r * 86400) := by
    simp [cleanup_old_backups, List.mem_filter, hmem, shouldDelete, hfile,
      decide_eq_true_iff, harith]
  have keyRem : f ∈ (cleanup_old_backups r now files).remaining ↔
      ¬(f.suffix ∈ [".gz", ".sql", ".tar"] ∧ now - f.mtime > r * 86400) := by
    simp [cleanup_old_backups, List.mem_filter, hmem, shouldDelete, hfile,
      decide_eq_true_iff, harith]
    tauto
  refine ⟨key, keyRem, ?_, ?_, ?_⟩
  · intro hs hm
    exact key.mpr ⟨hs, by omega⟩
  · intro hm hdel
    have := (key.mp hdel).2
    omega
  · intro hs hdel
    exact hs (key.mp hdel).1

/-- Witness for `retention_sweep_deletes_iff` at retention 7, current time
10000000 and the concrete file `oldGz` dated 8 days earlier. -/
theorem retention_sweep_deletes_iff_witness :
    oldGz ∈ (cleanup_old_backups 7 10000000 [oldGz]).removed :=
  (retention_sweep_deletes_iff 7 10000000 [oldGz] oldGz (by decide) (by decide)
    (by decide)).2.2.1 (by decide) (by decide)

/-- Claim C6.  For an enabled database target, dispatch is on the
lower-cased `type`: `mysql`/`mariadb` go to the MySQL path,
`postgresql`/`postgres` to the PostgreSQL path, and any other value yields
no file, no spawned process, an Unsupported-type error line, and exactly
one failure in a run over that target. -/
theorem database_dispatch_case_insensitive
    (env : ToolEnv) (wenv : WebsiteEnv) (t : DatabaseTarget) (ts : String)
    (hen : t.enabled = true) :
    (lowerStr (t.dbType.getD "mysql") = "mysql"
        ∨ lowerStr (t.dbType.getD "mysql") = "mariadb" →
      backup_database env t ts = backup_mysql_database env t ts)
    ∧ (lowerStr (t.dbType.getD "mysql") = "postgresql"
        ∨ lowerStr (t.dbType.getD "mysql") = "postgres" →
      backup_database env t ts = backup_postgresql_database env t ts)
    ∧ (lowerStr (t.dbType.getD "mysql")
        ∉ (["mysql", "mariadb", "postgresql", "postgres"] : List String) →
      backup_database env t ts
        = { returned := none, filesLeft := [], processesInvoked := []
          , logError := some ("Unsupported database type: "
              ++ lowerStr (t.dbType.getD "mysql")) }
      ∧ run_backup wenv env
          { backup_dir := "./backups", retention_days := 7, compression := "gz"
          , websites := [], databases := [t] } ts
        = { success_count := 0, fail_count := 1, files := [], processes := [] }) := by
  refine ⟨?_, ?_, ?_⟩
  · rintro (h | h) <;> simp [backup_database, hen, h]
  · rintro (h | h) <;> simp [backup_database, hen, h]
  · intro hno
    simp only [List.mem_cons, List.not_mem_nil, or_false, not_or] at hno
    obtain ⟨h1, h2, h3, h4⟩ := hno
    have hbd : backup_database env t ts
        = { returned := none, filesLeft := [], processesInvoked := []
          , logError := some ("Unsupported database type: "
              ++ lowerStr (t.dbType.getD "mysql")) } := by
      simp [backup_database, hen, h1, h2, h3, h4]
    exact ⟨hbd, by simp [run_backup, countStep, hbd]⟩

/-- Witness for `database_dispatch_case_insensitive`: a target whose `type`
is `Oracle` produces no file, spawns no process and logs the unsupported
type (lower-cased), and a run over it reports exactly one failure. -/
theorem database_dispatch_case_insensitive_witness :
    backup_database denvAllTools (sampleDb (some "Oracle") true) "20250101_140000"
      = { returned := none, filesLeft := [], processesInvoked := []
        , logError := some "Unsupported database type: oracle" }
    ∧ run_backup wenvMissingPath denvAllTools
        { backup_dir := "./backups", retention_days := 7, compression := "gz"
        , websites := [], databases := [sampleDb (some "Oracle") true] }
        "20250101_140000"
      = { success_count := 0, fail_count := 1, files := [], processes := [] } :=
  (database_dispatch_case_insensitive denvAllTools wenvMissingPath
    (sampleDb (some "Oracle") true) "20250101_140000" rfl).2.2 (by decide)

/-- Claim C7.  An enabled website target whose source path does not exist
yields no archive file, an error line, and exactly one failure in a run
over that target. -/
theorem missing_path_website_counts_one_failure
    (wenv : WebsiteEnv) (denv : ToolEnv) (w : WebsiteTarget) (ts : String)
    (hen : w.enabled = true) (hpath : wenv.pathExists w.path = false) :
    backup_website wenv w ts
      = { returned := none, filesLeft := [], processesInvoked := []
        , logError := some ("Website path does not exist: " ++ w.path) }
    ∧ run_backup wenv denv
        { backup_dir := "./backups", retention_days := 7, compression := "gz"
        , websites := [w], databases := [] } ts
      = { success_count := 0, fail_count := 1, files := [], processes := [] } := by
  have hbw : backup_website wenv w ts
      = { returned := none, filesLeft := [], processesInvoked := []
        , logError := some ("Website path does not exist: " ++ w.path) } := by
    simp [backup_website, hen, hpath]
  exact ⟨hbw, by simp [run_backup, countStep, hbw]⟩

/-- Witness for `missing_path_website_counts_one_failure` at the concrete
environment in which no path exists and the enabled `site1` target. -/
theorem missing_path_website_counts_one_failure_witness :
    backup_website wenvMissingPath (sampleSite true) "20250101_150000"
      = { returned := none, filesLeft := [], processesInvoked := []
        , logError := some "Website path does not exist: /var/www/site1" }
    ∧ run_backup wenvMissingPath denvAllTools
        { backup_dir := "./backups", retention_days := 7, compression := "gz"
        , websites := [sampleSite true], databases := [] } "20250101_150000"
      = { success_count := 0, fail_count := 1, files := [], processes := [] } :=
  missing_path_website_counts_one_failure wenvMissingPath denvAllTools
    (sampleSite true) "20250101_150000" rfl rfl

/-- Claim C8.  Once the configuration loads, a real run exits 0 exactly when
`run_backup` reports `fail_count = 0` and exits 1 otherwise; `--init` exits
0 without running backups, writing the default configuration when the file
was missing. -/
theorem exit_code_follows_fail_count
    (file : ConfigFile) (wenv : WebsiteEnv) (denv : ToolEnv) (ts : String)
    (cfg : Config) (wrote : Bool)
    (h : load_config file = .loaded cfg wrote) :
    main_fn file false wenv denv ts
      = { exitCode := if (run_backup wenv denv cfg ts).fail_count = 0 then 0 else 1
        , ranBackup := true, wroteDefaultConfig := wrote }
    ∧ main_fn file true wenv denv ts
      = { exitCode := 0, ranBackup := false, wroteDefaultConfig := wrote }
    ∧ main_fn .missing true wenv denv ts
      = { exitCode := 0, ranBackup := false, wroteDefaultConfig := true } := by
  refine ⟨?_, ?_, rfl⟩ <;> simp [main_fn, h]

/-- Witness for `exit_code_follows_fail_count` on a parsed configuration
with one disabled website: `--init` exits 0 without running, and a real run
exits 1 because the code counts the skipped target as a failure. -/
theorem exit_code_follows_fail_count_witness :
    main_fn (.validJson cfgOneDisabledSite) true wenvMissingPath denvAllTools
        "20250103_000000"
      = { exitCode := 0, ranBackup := false, wroteDefaultConfig := false }
    ∧ main_fn (.validJson cfgOneDisabledSite) false wenvMissingPath denvAllTools
        "20250103_000000"
      = { exitCode := if (run_backup wenvMissingPath denvAllTools
            cfgOneDisabledSite "20250103_000000").fail_count = 0 then 0 else 1
        , ranBackup := true, wroteDefaultConfig := false } :=
  ⟨(exit_code_follows_fail_count (.validJson cfgOneDisabledSite) wenvMissingPath
      denvAllTools "20250103_000000" cfgOneDisabledSite false rfl).2.1,
   (exit_code_follows_fail_count (.validJson cfgOneDisabledSite) wenvMissingPath
      denvAllTools "20250103_000000" cfgOneDisabledSite false rfl).1⟩

/-- Claim C10.  An enabled database target whose document has no `type`
field is dispatched to the MySQL path: the code reads the field with
default `mysql`. -/
theorem missing_type_field_treated_as_mysql
    (env : ToolEnv) (t : DatabaseTarget) (ts : String)
    (hty : t.dbType = none) (hen : t.enabled = true) :
    backup_database env t ts = backup_mysql_database env t ts := by
  have hl : lowerStr "mysql" = "mysql" := rfl
  simp [backup_database, hen, hty, hl]

/-- Witness for `missing_type_field_treated_as_mysql` at a concrete target
with no `type` field. -/
theorem missing_type_field_treated_as_mysql_witness :
    backup_database denvAllTools (sampleDb none true) "20250101_170000"
      = backup_mysql_database denvAllTools (sampleDb none true) "20250101_170000" :=
  missing_type_field_treated_as_mysql denvAllTools (sampleDb none true)
    "20250101_170000" rfl rfl
